import Mathlib

/-!
# Verification of the gpt-researcher scraper core

Shallow embedding of `gpt_researcher/scraper/scraper.py` (orchestrator,
strategy selection, per-task failure containment and content gate),
`scraperapi/scraperapi.py` (bounded retry loop), and the shared premium-proxy
and text-normalization logic of `scraping_bee/scraping_bee.py` and
`zenrows/zenrows.py`.

Network effects are modelled by oracles: a per-URL `ScrapeResult` describes
what the selected strategy's `scrape` call returned (or that it raised), and
for the retry loop a function `Nat → AttemptRes` describes the outcome of each
successive HTTP attempt.
-/

set_option autoImplicit false

namespace GptResearcher

/-! ## Strategy selection (`Scraper.get_scraper`, scraper.py:172-213) -/

/-- The keys of the `SCRAPER_CLASSES` dictionary (scraper.py:189-198). -/
def SCRAPER_KEYS : List String :=
  ["pdf", "arxiv", "bs", "web_base_loader", "browser", "nodriver",
   "tavily_extract", "firecrawl"]

/-- The key-selection logic of `get_scraper` (scraper.py:200-207):
`link.endswith(".pdf")` picks `"pdf"`, else `"arxiv.org" in link` (Python
substring containment) picks `"arxiv"`, else the configured default
`self.scraper` is used. -/
def get_scraper_key (defaultKey link : String) : String :=
  if ".pdf".data <:+ link.data then "pdf"
  else if "arxiv.org".data <:+: link.data then "arxiv"
  else defaultKey

/-- `get_scraper` (scraper.py:200-213): resolve the key, then look it up in
`SCRAPER_CLASSES`; a key with no registered class raises
`Exception("Scraper not found.")`, modelled as `.error`. -/
def get_scraper (defaultKey link : String) : Except String String :=
  let key := get_scraper_key defaultKey link
  if key ∈ SCRAPER_KEYS then Except.ok key else Except.error "Scraper not found."

/-! ## Per-URL extraction task (`Scraper.extract_data_from_url`,
scraper.py:100-170) -/

/-- Oracle for one strategy invocation: either `scrape`/`scrape_async`
returned `(content, image_urls, title)`, or it raised an exception. -/
inductive ScrapeResult where
  | success (content : String) (imageUrls : List String) (title : String)
  | failure
deriving DecidableEq, Repr

/-- The per-URL result dict (scraper.py:127-132, 161-166, 170). -/
structure Outcome where
  url : String
  raw_content : Option String
  image_urls : List String
  title : String
deriving DecidableEq, Repr

/-- Spec-side status tag of an outcome (spec §3 `ExtractionOutcome`). -/
inductive Status where
  | accepted
  | rejected
  | failed
deriving DecidableEq, Repr

/-- `extract_data_from_url` (scraper.py:100-170): resolve the scraper class
(a raise here is caught by the task-boundary `except`), run it (a raise is
likewise caught, yielding the line-170 dict), gate content shorter than 100
characters to a `raw_content = None` dict keeping the scraped title
(lines 125-132), otherwise return the full dict (lines 161-166). -/
def extract_data_from_url (defaultKey url : String) (r : ScrapeResult) : Outcome :=
  match get_scraper defaultKey url with
  | Except.error _ => ⟨url, none, [], ""⟩
  | Except.ok _ =>
    match r with
    | ScrapeResult.failure => ⟨url, none, [], ""⟩
    | ScrapeResult.success content image_urls title =>
      if content.length < 100 then ⟨url, none, [], title⟩
      else ⟨url, some content, image_urls, title⟩

/-- Which branch of `extract_data_from_url` produced the outcome: the
task-boundary `except` (failed), the `< 100` gate (rejected), or the
full-content return (accepted). -/
def outcomeStatus (defaultKey url : String) (r : ScrapeResult) : Status :=
  match get_scraper defaultKey url with
  | Except.error _ => Status.failed
  | Except.ok _ =>
    match r with
    | ScrapeResult.failure => Status.failed
    | ScrapeResult.success content _ _ =>
      if content.length < 100 then Status.rejected else Status.accepted

/-! ## Batch run (`Scraper.run`, scraper.py:56-65) -/

/-- The `asyncio.gather` result (scraper.py:60-62): one outcome per URL, in
submission order. The oracle list `rs` supplies each task's scrape result
positionally. -/
def gatherOutcomes (defaultKey : String) (urls : List String)
    (rs : List ScrapeResult) : List Outcome :=
  (urls.zip rs).map (fun p => extract_data_from_url defaultKey p.1 p.2)

/-- `Scraper.run` (scraper.py:56-65): gather all outcomes, then keep only
those whose `raw_content` is not `None` (line 64). -/
def run (defaultKey : String) (urls : List String)
    (rs : List ScrapeResult) : List Outcome :=
  (gatherOutcomes defaultKey urls rs).filter (fun o => o.raw_content.isSome)

/-! ## ScraperAPI bounded retry loop (`scraperapi/scraperapi.py:28-48`) -/

/-- Oracle for one `requests.get` attempt inside the retry loop: either a
response with a status code and body text, or a
`requests.exceptions.ConnectionError`. -/
inductive AttemptRes where
  | response (status : Nat) (body : String)
  | connError
deriving DecidableEq, Repr

/-- State of the Python local variable `response` inside `scrape_url`:
`none` = never assigned (the loop body never ran), `some none` = assigned
`None` (connection error), `some (some (s, b))` = assigned a `Response` with
status `s` and text `b`. -/
abbrev RespState := Option (Option (Nat × String))

/-- The `for _ in range(self.num_retries)` loop of `scrape_url`
(scraperapi.py:34-42), with `k` iterations remaining, `i` requests already
issued, and `resp` the current state of the local `response`. Returns the
number of requests issued and the final state of `response`. A status of
200 or 404 breaks out of the loop; a connection error assigns
`response = None` and continues. -/
def scraperapiLoop (attempts : Nat → AttemptRes) :
    Nat → Nat → RespState → Nat × RespState
  | 0, i, resp => (i, resp)
  | k + 1, i, _resp =>
    match attempts i with
    | AttemptRes.connError => scraperapiLoop attempts k (i + 1) (some none)
    | AttemptRes.response s b =>
      if s = 200 ∨ s = 404 then (i + 1, some (some (s, b)))
      else scraperapiLoop attempts k (i + 1) (some (some (s, b)))

/-- `ScraperAPI.scrape_url` (scraperapi.py:28-48). After the loop,
`if response and response.status_code == 200` returns `response.text`
(a `Response` is truthy exactly when its status is below 400, so the net
effect is: return the body iff the status is 200); otherwise return `""`.
If the loop body never ran, the local `response` is unbound and the
truthiness test raises `NameError`, modelled as `.error ()`. The first
component is the number of requests issued. -/
def scrape_url (attempts : Nat → AttemptRes) (num_retries : Nat) :
    Nat × Except Unit String :=
  match scraperapiLoop attempts num_retries 0 none with
  | (made, none) => (made, Except.error ())
  | (made, some none) => (made, Except.ok "")
  | (made, some (some (s, b))) =>
    if s < 400 ∧ s = 200 then (made, Except.ok b) else (made, Except.ok "")

/-! ## Premium proxy flag (scraping_bee.py:44-48 and zenrows.py:40-44) -/

/-- `PREMIUM_PROXY_DOMAINS` (scraping_bee.py:5, zenrows.py:5 — identical). -/
def PREMIUM_PROXY_DOMAINS : List String :=
  ["reddit.com", "twitter.com", "linkedin.com", "instagram.com"]

/-- The `premium_proxy` request parameter computed by both
`ScrapingBeeScraper.scrape` (scraping_bee.py:44-48) and
`ZenRowsScraper.scrape` (zenrows.py:40-44):
`any(domain in self.link for domain in PREMIUM_PROXY_DOMAINS)`, where the
Python `in` is substring containment on the whole URL string. -/
def premiumProxyFlag (link : String) : Bool :=
  PREMIUM_PROXY_DOMAINS.any (fun domain => decide (domain.data <:+: link.data))

/-- The host (authority) component of a URL, as referred to by the phrase
"the target URL's host": the text after the `://` scheme separator (or the
whole string if there is none), up to the first `/`, `:`, `?` or `#`.
Used only to state host-membership on the claim's side; the code itself
never extracts a host. -/
def urlHost (link : String) : String :=
  let rest := (afterScheme link.data).getD link.data
  String.mk (rest.takeWhile fun c => c ≠ '/' ∧ c ≠ ':' ∧ c ≠ '?' ∧ c ≠ '#')
where
  /-- The text after the first occurrence of `"://"`, or `none` if the URL
  has no scheme separator. -/
  afterScheme : List Char → Option (List Char)
  | ':' :: '/' :: '/' :: rest => some rest
  | _ :: rest => afterScheme rest
  | [] => none

/-! ## Content normalizer (scraping_bee.py:64-67 and zenrows.py:57-60)

The post-processing applied to `parse_page`'s output, identical in both
adapters:
```python
lines = (line.strip() for line in raw_content.splitlines())
chunks = (phrase.strip() for line in lines for phrase in line.split("  "))
text_content = "\n".join(chunk for chunk in chunks if chunk)
```
Text is modelled as `List Char`; `splitlines`, `strip` and `split`
reproduce the Python string methods. -/

/-- The line-boundary characters recognized by Python `str.splitlines`. -/
def lineBreakChars : List Char :=
  ['\n', '\r', '\x0B', '\x0C', '\x1C', '\x1D', '\x1E', '\x85',
   '\u2028', '\u2029']

/-- Is `c` a line boundary for `str.splitlines`? -/
def isLineBreak (c : Char) : Bool := lineBreakChars.contains c

/-- Is `c` whitespace for Python `str.strip()` (no arguments)? Covers the
ASCII whitespace characters, the line-boundary characters, and the no-break
space. -/
def isPySpace (c : Char) : Bool :=
  c == ' ' || c == '\t' || c == '\x1F' || c == '\xA0' || isLineBreak c

/-- Python `str.strip()`: drop leading and trailing whitespace. -/
def pyStrip (l : List Char) : List Char :=
  ((l.dropWhile isPySpace).reverse.dropWhile isPySpace).reverse

/-- Worker for `str.splitlines`: `acc` holds the current line reversed. A
`"\r\n"` pair counts as a single boundary; a trailing boundary does not
produce an extra empty line. -/
def splitlinesGo : List Char → List Char → List (List Char)
  | [], acc => if acc = [] then [] else [acc.reverse]
  | c :: rest, acc =>
    if isLineBreak c then
      acc.reverse ::
        splitlinesGo (if c = '\r' ∧ rest.head? = some '\n' then rest.tail else rest) []
    else splitlinesGo rest (c :: acc)
termination_by l _ => l.length
decreasing_by
  · split
    · simp only [List.length_tail, List.length_cons]; omega
    · simp
  · simp

/-- Python `str.splitlines()`. -/
def splitlines (l : List Char) : List (List Char) := splitlinesGo l []

/-- Worker for `str.split("  ")`: scan left to right for non-overlapping
occurrences of two consecutive spaces. -/
def splitTwoGo : List Char → List Char → List (List Char)
  | [], acc => [acc.reverse]
  | c :: rest, acc =>
    if c = ' ' ∧ rest.head? = some ' ' then acc.reverse :: splitTwoGo rest.tail []
    else splitTwoGo rest (c :: acc)
termination_by l _ => l.length
decreasing_by
  · simp only [List.length_tail, List.length_cons]; omega
  · simp

/-- Python `line.split("  ")`. -/
def splitTwoSpaces (l : List Char) : List (List Char) := splitTwoGo l []

/-- Python `"\n".join(...)`. -/
def joinLines : List (List Char) → List Char
  | [] => []
  | [l] => l
  | l :: ls => l ++ '\n' :: joinLines ls

/-- The shared normalization (scraping_bee.py:64-67, zenrows.py:57-60):
split into lines, strip each line, split each stripped line on two-space
runs, strip each fragment, drop empty fragments, join with newlines. -/
def normalizeText (raw : List Char) : List Char :=
  joinLines (((((splitlines raw).map pyStrip).flatMap fun line =>
    (splitTwoSpaces line).map pyStrip).filter fun chunk => !chunk.isEmpty))

/-- Does `l` contain two consecutive spaces? Written with the same guard
shape as `splitTwoGo`. -/
def hasTwoSpaces : List Char → Bool
  | [] => false
  | c :: rest =>
    if c = ' ' ∧ rest.head? = some ' ' then true else hasTwoSpaces rest

/-- A line of normal-form text (spec §8: "single newline-separated non-empty
lines", each already stripped, with no runs of two or more spaces): it is
non-empty, stripping it is the identity, it has no two-space run, and it
contains no line-boundary character. -/
def isNormalLine (l : List Char) : Prop :=
  l ≠ [] ∧ pyStrip l = l ∧ hasTwoSpaces l = false ∧ ∀ c ∈ l, isLineBreak c = false

/-! ## Helper lemmas -/

/-- Mapping a function that fixes every element of a list is the identity. -/
theorem map_eq_self_of_forall {α : Type} (f : α → α) (l : List α)
    (h : ∀ a ∈ l, f a = a) : l.map f = l := by
  induction l with
  | nil => rfl
  | cons a t ih =>
    rw [List.map_cons, h a (by simp), ih fun x hx => h x (by simp [hx])]

/-- Binding a function that sends every element to its singleton is the
identity. -/
theorem flatMap_eq_self_of_forall {α : Type} (f : α → List α) (l : List α)
    (h : ∀ a ∈ l, f a = [a]) : l.flatMap f = l := by
  induction l with
  | nil => rfl
  | cons a t ih =>
    rw [List.flatMap_cons, h a (by simp), ih fun x hx => h x (by simp [hx])]
    rfl

/-- `gatherOutcomes` distributes over appending batches of equal length. -/
theorem gatherOutcomes_append (defaultKey : String) :
    ∀ (urls₁ : List String) (rs₁ : List ScrapeResult),
      urls₁.length = rs₁.length →
      ∀ (urls₂ : List String) (rs₂ : List ScrapeResult),
        gatherOutcomes defaultKey (urls₁ ++ urls₂) (rs₁ ++ rs₂) =
          gatherOutcomes defaultKey urls₁ rs₁ ++ gatherOutcomes defaultKey urls₂ rs₂ := by
  intro urls₁
  induction urls₁ with
  | nil =>
    intro rs₁ h urls₂ rs₂
    cases rs₁ with
    | nil => rfl
    | cons r rt => simp at h
  | cons u ut ih =>
    intro rs₁ h urls₂ rs₂
    cases rs₁ with
    | nil => simp at h
    | cons r rt =>
      simp only [List.cons_append, gatherOutcomes, List.zip_cons_cons, List.map_cons]
      rw [show ((ut ++ urls₂).zip (rt ++ rs₂)).map
            (fun p => extract_data_from_url defaultKey p.1 p.2) =
          gatherOutcomes defaultKey (ut ++ urls₂) (rt ++ rs₂) from rfl,
        ih rt (by simpa using h) urls₂ rs₂]
      rfl

/-! ## Claims about strategy selection -/

/-- C4: strategy selection is a total function of the URL and default key and
resolves first-match-wins: a URL ending in `.pdf` gets `"pdf"` whatever the
default is; otherwise a URL containing `arxiv.org` gets `"arxiv"`; otherwise
the configured default key is used. -/
theorem C4_selection_first_match (defaultKey link : String) :
    (".pdf".data <:+ link.data → get_scraper_key defaultKey link = "pdf") ∧
    (¬ ".pdf".data <:+ link.data → "arxiv.org".data <:+: link.data →
      get_scraper_key defaultKey link = "arxiv") ∧
    (¬ ".pdf".data <:+ link.data → ¬ "arxiv.org".data <:+: link.data →
      get_scraper_key defaultKey link = defaultKey) := by
  refine ⟨fun h => ?_, fun h1 h2 => ?_, fun h1 h2 => ?_⟩
  · simp [get_scraper_key, h]
  · simp [get_scraper_key, h1, h2]
  · simp [get_scraper_key, h1, h2]

/-- Witness for C4 at concrete URLs exercising all three branches. -/
theorem C4_selection_first_match_witness :
    get_scraper_key "bs" "http://e.com/a.pdf" = "pdf" ∧
    get_scraper_key "bs" "http://arxiv.org/abs/1" = "arxiv" ∧
    get_scraper_key "bs" "http://e.com/a" = "bs" :=
  ⟨(C4_selection_first_match "bs" "http://e.com/a.pdf").1 (by decide),
   (C4_selection_first_match "bs" "http://arxiv.org/abs/1").2.1 (by decide) (by decide),
   (C4_selection_first_match "bs" "http://e.com/a").2.2 (by decide) (by decide)⟩

/-- C3 counterexample: `http://arxiv.org/x.pdf` has host `arxiv.org` (and
contains `arxiv.org`), yet selection resolves it to `"pdf"`, not `"arxiv"`,
because the `.pdf` check comes first (scraper.py:202-205). -/
theorem C3_arxiv_pdf_counterexample :
    urlHost "http://arxiv.org/x.pdf" = "arxiv.org" ∧
    "arxiv.org".data <:+: "http://arxiv.org/x.pdf".data ∧
    get_scraper_key "bs" "http://arxiv.org/x.pdf" = "pdf" := by decide

/-- C3 amended: a URL containing `arxiv.org` resolves to the arxiv strategy
provided it does not end in `.pdf`; when it also ends in `.pdf` the pdf
strategy wins. -/
theorem C3_arxiv_when_not_pdf (defaultKey link : String)
    (harx : "arxiv.org".data <:+: link.data)
    (hpdf : ¬ ".pdf".data <:+ link.data) :
    get_scraper_key defaultKey link = "arxiv" := by
  simp [get_scraper_key, harx, hpdf]

/-- Witness for the amended C3 at a concrete arxiv abstract URL. -/
theorem C3_arxiv_when_not_pdf_witness :
    get_scraper_key "bs" "http://arxiv.org/abs/2" = "arxiv" :=
  C3_arxiv_when_not_pdf "bs" "http://arxiv.org/abs/2" (by decide) (by decide)

/-! ## Claim about failure containment -/

/-- C5: a task whose strategy invocation raises, or whose strategy key does
not resolve (the `ConfigurationError` of an unregistered key,
scraper.py:209-211), produces the `Failed` outcome dict of scraper.py:170 —
`raw_content = None`, empty image list, empty title — and the surrounding
batch still produces every other target's outcome unchanged. -/
theorem C5_failure_containment (defaultKey url : String) (r : ScrapeResult)
    (urls₁ urls₂ : List String) (rs₁ rs₂ : List ScrapeResult)
    (hfail : r = ScrapeResult.failure ∨
      ∃ m, get_scraper defaultKey url = Except.error m)
    (hlen : urls₁.length = rs₁.length) :
    extract_data_from_url defaultKey url r = ⟨url, none, [], ""⟩ ∧
    gatherOutcomes defaultKey (urls₁ ++ url :: urls₂) (rs₁ ++ r :: rs₂) =
      gatherOutcomes defaultKey urls₁ rs₁ ++
        (⟨url, none, [], ""⟩ : Outcome) :: gatherOutcomes defaultKey urls₂ rs₂ := by
  have hextract : extract_data_from_url defaultKey url r = ⟨url, none, [], ""⟩ := by
    rcases hfail with rfl | ⟨m, hm⟩
    · unfold extract_data_from_url
      cases hg : get_scraper defaultKey url <;> simp
    · unfold extract_data_from_url
      rw [hm]
  refine ⟨hextract, ?_⟩
  rw [gatherOutcomes_append defaultKey urls₁ rs₁ hlen]
  congr 1
  simp only [gatherOutcomes, List.zip_cons_cons, List.map_cons, hextract]

/-- Witness for C5: an unregistered default key (`"zenrows"` is not in
`SCRAPER_CLASSES`) fails its own task while the sibling target still
produces its accepted outcome. -/
theorem C5_failure_containment_witness :
    extract_data_from_url "zenrows" "http://e.com/a"
        (ScrapeResult.success (String.mk (List.replicate 150 'x')) [] "t") =
      ⟨"http://e.com/a", none, [], ""⟩ ∧
    gatherOutcomes "zenrows" (["http://arxiv.org/abs/1"] ++ "http://e.com/a" :: [])
        ([ScrapeResult.success (String.mk (List.replicate 150 'y')) [] "s"] ++
          ScrapeResult.success (String.mk (List.replicate 150 'x')) [] "t" :: []) =
      gatherOutcomes "zenrows" ["http://arxiv.org/abs/1"]
          [ScrapeResult.success (String.mk (List.replicate 150 'y')) [] "s"] ++
        (⟨"http://e.com/a", none, [], ""⟩ : Outcome) :: gatherOutcomes "zenrows" [] [] :=
  C5_failure_containment "zenrows" "http://e.com/a" _ _ _ _ _
    (Or.inr ⟨"Scraper not found.", rfl⟩) rfl

/-! ## Claim about the premium proxy flag -/

/-- C6 counterexample: the code tests each premium domain as a substring of
the whole URL (scraping_bee.py:46, zenrows.py:42), so
`http://example.com/reddit.com`, whose host `example.com` is not in the
premium-domain set, still gets `premium_proxy = true`. -/
theorem C6_premium_counterexample :
    premiumProxyFlag "http://example.com/reddit.com" = true ∧
    urlHost "http://example.com/reddit.com" = "example.com" ∧
    "example.com" ∉ PREMIUM_PROXY_DOMAINS := by decide

/-- C6 amended: the request carries `premium_proxy = true` exactly when some
domain of the fixed premium set occurs as a substring of the URL string
(not of its host). -/
theorem C6_premium_iff_substring (link : String) :
    premiumProxyFlag link = true ↔
      ∃ domain ∈ PREMIUM_PROXY_DOMAINS, domain.data <:+: link.data := by
  simp [premiumProxyFlag, List.any_eq_true]

/-! ## Claims about the batch run -/

/-- The gathered outcome at position `i` is the extraction of the `i`-th URL
with the `i`-th oracle result: submission order is preserved positionally. -/
theorem gatherOutcomes_get? (defaultKey : String) :
    ∀ (urls : List String) (rs : List ScrapeResult) (i : Nat),
      urls.length = rs.length →
      (gatherOutcomes defaultKey urls rs).get? i =
        Option.map₂ (extract_data_from_url defaultKey) (urls.get? i) (rs.get? i) := by
  intro urls
  induction urls with
  | nil =>
    intro rs i h
    cases rs with
    | nil => cases i <;> rfl
    | cons r rt => simp at h
  | cons u ut ih =>
    intro rs i h
    cases rs with
    | nil => simp at h
    | cons r rt =>
      cases i with
      | zero => rfl
      | succ i =>
        simpa only [gatherOutcomes, List.zip_cons_cons, List.map_cons,
          List.get?_cons_succ] using ih rt i (by simpa using h)

/-- C1 counterexample: a batch of one URL whose task fails yields a `run`
result of length 0, not 1 — the failed outcome is dropped by the
`raw_content is not None` filter on scraper.py:64. -/
theorem C1_run_counterexample :
    (run "bs" ["http://e.com/a"] [ScrapeResult.failure]).length = 0 ∧
    (["http://e.com/a"] : List String).length = 1 := by decide

/-- C1 amended: the gathered sequence (scraper.py:60-62) has exactly one
outcome per submitted URL, positionally in submission order, with failures
present as typed records; `run` then returns the order-preserving
subsequence of it whose `raw_content` is present (scraper.py:64), so `run`'s
own result can be shorter than the batch. -/
theorem C1_run_ordered_accepted_subsequence (defaultKey : String)
    (urls : List String) (rs : List ScrapeResult)
    (hlen : urls.length = rs.length) :
    (gatherOutcomes defaultKey urls rs).length = urls.length ∧
    (∀ i, (gatherOutcomes defaultKey urls rs).get? i =
      Option.map₂ (extract_data_from_url defaultKey) (urls.get? i) (rs.get? i)) ∧
    run defaultKey urls rs =
      (gatherOutcomes defaultKey urls rs).filter (fun o => o.raw_content.isSome) ∧
    (run defaultKey urls rs).Sublist (gatherOutcomes defaultKey urls rs) := by
  refine ⟨?_, fun i => gatherOutcomes_get? defaultKey urls rs i hlen, rfl,
    List.filter_sublist _⟩
  simp [gatherOutcomes, hlen]

/-- Witness for the amended C1 on a two-target batch with one failure. -/
theorem C1_run_ordered_accepted_subsequence_witness :
    (gatherOutcomes "bs" ["http://e.com/a", "http://e.com/b"]
      [ScrapeResult.failure,
       ScrapeResult.success (String.mk (List.replicate 120 'x')) [] "t"]).length = 2 ∧
    (run "bs" ["http://e.com/a", "http://e.com/b"]
        [ScrapeResult.failure,
         ScrapeResult.success (String.mk (List.replicate 120 'x')) [] "t"]).Sublist
      (gatherOutcomes "bs" ["http://e.com/a", "http://e.com/b"]
        [ScrapeResult.failure,
         ScrapeResult.success (String.mk (List.replicate 120 'x')) [] "t"]) :=
  ⟨(C1_run_ordered_accepted_subsequence "bs" _ _ rfl).1,
   (C1_run_ordered_accepted_subsequence "bs" _ _ rfl).2.2.2⟩

/-! ## Claim about the outcome invariant -/

/-- C2: an accepted outcome carries content of length at least 100; a
rejected or failed outcome carries `raw_content = None`; and a successful
strategy call whose text is shorter than 100 characters is reclassified
rejected with its content discarded (scraper.py:125-132). -/
theorem C2_outcome_invariant (defaultKey url : String) (r : ScrapeResult) :
    (outcomeStatus defaultKey url r = Status.accepted →
      ∃ c, (extract_data_from_url defaultKey url r).raw_content = some c ∧
        100 ≤ c.length) ∧
    (outcomeStatus defaultKey url r ≠ Status.accepted →
      (extract_data_from_url defaultKey url r).raw_content = none) ∧
    (∀ content imgs title, r = ScrapeResult.success content imgs title →
      content.length < 100 →
      (∃ key, get_scraper defaultKey url = Except.ok key) →
      outcomeStatus defaultKey url r = Status.rejected ∧
      (extract_data_from_url defaultKey url r).raw_content = none) := by
  unfold outcomeStatus extract_data_from_url
  cases hg : get_scraper defaultKey url with
  | error m =>
    refine ⟨fun h => by simp at h, fun _ => rfl, ?_⟩
    rintro content imgs title rfl hshort ⟨key, hkey⟩
    exact Except.noConfusion hkey
  | ok key =>
    cases r with
    | failure => exact ⟨fun h => by simp at h, fun _ => rfl, by rintro _ _ _ ⟨⟩⟩
    | success content imgs title =>
      by_cases hlen : content.length < 100
      · refine ⟨fun h => by simp [hlen] at h, fun _ => by simp [hlen], ?_⟩
        rintro c i t ⟨⟩ _ _
        simp [hlen]
      · refine ⟨fun _ => ⟨content, by simp [hlen], by omega⟩,
          fun h => absurd (by simp [hlen]) h, ?_⟩
        rintro c i t ⟨⟩ hshort _
        exact absurd hshort hlen

/-- Witness for C2: a 2-character result is reclassified rejected with
absent content. -/
theorem C2_outcome_invariant_witness :
    outcomeStatus "bs" "http://e.com/a" (ScrapeResult.success "hi" [] "t") =
      Status.rejected ∧
    (extract_data_from_url "bs" "http://e.com/a"
      (ScrapeResult.success "hi" [] "t")).raw_content = none :=
  (C2_outcome_invariant "bs" "http://e.com/a" _).2.2 "hi" [] "t" rfl
    (by decide) ⟨"bs", rfl⟩

/-! ## Claims about the ScraperAPI retry loop -/

/-- If the `k + 1` attempts starting at index `i` all raise connection
errors, the loop runs to exhaustion, issues all `k + 1` requests, and leaves
`response = None`. -/
theorem scraperapiLoop_conn_range (attempts : Nat → AttemptRes) :
    ∀ (k i : Nat) (resp : RespState),
      (∀ j, j < k + 1 → attempts (i + j) = AttemptRes.connError) →
      scraperapiLoop attempts (k + 1) i resp = (i + (k + 1), some none) := by
  intro k
  induction k with
  | zero =>
    intro i resp h
    have h0 : attempts i = AttemptRes.connError := by simpa using h 0 (by omega)
    simp [scraperapiLoop, h0]
  | succ k ih =>
    intro i resp h
    have h0 : attempts i = AttemptRes.connError := by simpa using h 0 (by omega)
    rw [scraperapiLoop, h0]
    dsimp only
    rw [ih (i + 1) (some none) fun j hj => by
      have := h (j + 1) (by omega)
      simpa [Nat.add_assoc, Nat.add_comm 1 j] using this]
    have harith : i + 1 + (k + 1) = i + (k + 1 + 1) := by omega
    rw [harith]

/-- After the loop, a bound `response` always yields a returned string. -/
theorem scraperapiLoop_resp_bound (attempts : Nat → AttemptRes) :
    ∀ (k i : Nat) (resp : RespState), resp ≠ none ∨ 1 ≤ k →
      (scraperapiLoop attempts k i resp).2 ≠ none := by
  intro k
  induction k with
  | zero =>
    intro i resp h
    rcases h with h | h
    · exact h
    · omega
  | succ k ih =>
    intro i resp _
    rw [scraperapiLoop]
    cases hatt : attempts i with
    | connError => exact ih (i + 1) (some none) (Or.inl (by simp))
    | response s b =>
      by_cases hterm : s = 200 ∨ s = 404
      · simp [hterm]
      · simpa [hterm] using ih (i + 1) (some (some (s, b))) (Or.inl (by simp))

/-- C7: when every one of the `num_retries` attempts raises a connection
error, `scrape_url` exhausts all attempts and returns `""` without raising
(scraperapi.py:34-48). -/
theorem C7_all_conn_errors_return_empty (attempts : Nat → AttemptRes) (n : Nat)
    (hn : 1 ≤ n) (h : ∀ i, i < n → attempts i = AttemptRes.connError) :
    scrape_url attempts n = (n, Except.ok "") := by
  obtain ⟨k, rfl⟩ : ∃ k, n = k + 1 := ⟨n - 1, by omega⟩
  unfold scrape_url
  rw [scraperapiLoop_conn_range attempts k 0 none fun j hj => by
    simpa using h j (by omega)]
  simp

/-- Witness for C7 with the default `num_retries = 5`. -/
theorem C7_all_conn_errors_return_empty_witness :
    scrape_url (fun _ => AttemptRes.connError) 5 = (5, Except.ok "") :=
  C7_all_conn_errors_return_empty _ 5 (by omega) fun _ _ => rfl

/-- C8: a 404 on the first attempt is terminal — the loop breaks after a
single request and `scrape_url` returns `""` immediately
(scraperapi.py:39-40). -/
theorem C8_first_404_terminal (attempts : Nat → AttemptRes) (n : Nat)
    (body : String) (hn : 1 ≤ n)
    (h0 : attempts 0 = AttemptRes.response 404 body) :
    scrape_url attempts n = (1, Except.ok "") := by
  obtain ⟨k, rfl⟩ : ∃ k, n = k + 1 := ⟨n - 1, by omega⟩
  unfold scrape_url
  rw [scraperapiLoop, h0]
  norm_num

/-- Witness for C8 with `num_retries = 5`. -/
theorem C8_first_404_terminal_witness :
    scrape_url (fun _ => AttemptRes.response 404 "nope") 5 = (1, Except.ok "") :=
  C8_first_404_terminal _ 5 "nope" (by omega) rfl

/-- C10: `scrape_url` returns a string for every oracle exactly when
`num_retries ≥ 1`; with `num_retries = 0` the loop body never runs, the
local `response` is never bound, and the truthiness test raises `NameError`
(scraperapi.py:34-44). -/
theorem C10_zero_retries_raises (attempts : Nat → AttemptRes) (n : Nat) :
    (n = 0 → (scrape_url attempts n).2 = Except.error ()) ∧
    (1 ≤ n → ∃ s, (scrape_url attempts n).2 = Except.ok s) := by
  constructor
  · rintro rfl
    rfl
  · intro hn
    have hne := scraperapiLoop_resp_bound attempts n 0 none (Or.inr hn)
    unfold scrape_url
    rcases hl : scraperapiLoop attempts n 0 none with ⟨made, resp⟩
    rw [hl] at hne
    cases resp with
    | none => exact absurd rfl hne
    | some r =>
      cases r with
      | none => exact ⟨"", rfl⟩
      | some sb =>
        rcases sb with ⟨s, b⟩
        dsimp only
        split
        · exact ⟨b, rfl⟩
        · exact ⟨"", rfl⟩

/-- Witness for C10 at `num_retries = 0` and `num_retries = 1`. -/
theorem C10_zero_retries_raises_witness :
    (scrape_url (fun _ => AttemptRes.connError) 0).2 = Except.error () ∧
    ∃ s, (scrape_url (fun _ => AttemptRes.connError) 1).2 = Except.ok s :=
  ⟨(C10_zero_retries_raises (fun _ => AttemptRes.connError) 0).1 rfl,
   (C10_zero_retries_raises (fun _ => AttemptRes.connError) 1).2 (by omega)⟩

/-! ## Claim about normalizer idempotence -/

instance (l : List Char) : Decidable (isNormalLine l) := by
  unfold isNormalLine
  infer_instance

/-- `splitlinesGo` consumes a break-free prefix into its accumulator. -/
theorem splitlinesGo_no_break (l : List Char) :
    ∀ (rest acc : List Char), (∀ c ∈ l, isLineBreak c = false) →
      splitlinesGo (l ++ rest) acc = splitlinesGo rest (l.reverse ++ acc) := by
  induction l with
  | nil => intro rest acc _; simp
  | cons c t ih =>
    intro rest acc h
    have hc : isLineBreak c = false := h c (by simp)
    rw [List.cons_append, splitlinesGo, if_neg (by simp [hc])]
    rw [ih rest (c :: acc) fun x hx => h x (by simp [hx])]
    simp

/-- `splitlinesGo` at a plain newline emits the accumulated line. -/
theorem splitlinesGo_newline (rest acc : List Char) :
    splitlinesGo ('\n' :: rest) acc = acc.reverse :: splitlinesGo rest [] := by
  rw [splitlinesGo, if_pos (by decide)]
  rw [if_neg fun hc => absurd hc.1 (by decide)]

/-- Splitting the newline-join of non-empty break-free lines recovers
exactly those lines. -/
theorem splitlines_joinLines (ls : List (List Char))
    (h : ∀ l ∈ ls, l ≠ [] ∧ ∀ c ∈ l, isLineBreak c = false) :
    splitlines (joinLines ls) = ls := by
  induction ls with
  | nil => simp [splitlines, splitlinesGo, joinLines]
  | cons l ls ih =>
    obtain ⟨hne, hnb⟩ := h l (by simp)
    cases ls with
    | nil =>
      show splitlinesGo l [] = [l]
      have := splitlinesGo_no_break l [] [] hnb
      rw [List.append_nil] at this
      rw [this, splitlinesGo]
      simp [hne]
    | cons l₂ ls₂ =>
      show splitlinesGo (l ++ '\n' :: joinLines (l₂ :: ls₂)) [] = l :: l₂ :: ls₂
      rw [splitlinesGo_no_break l _ [] hnb, List.append_nil, splitlinesGo_newline,
        List.reverse_reverse]
      exact congrArg _ (ih fun x hx => h x (by simp [hx]))

/-- `splitTwoGo` on a line without a two-space run returns the single
fragment made of the accumulator and the line. -/
theorem splitTwoGo_no_two (l : List Char) :
    ∀ acc : List Char, hasTwoSpaces l = false →
      splitTwoGo l acc = [acc.reverse ++ l] := by
  induction l with
  | nil => intro acc _; simp [splitTwoGo]
  | cons c t ih =>
    intro acc h
    have hguard : ¬(c = ' ' ∧ t.head? = some ' ') := fun hg => by
      rw [hasTwoSpaces, if_pos hg] at h
      exact Bool.noConfusion h
    rw [splitTwoGo, if_neg hguard, ih (c :: acc) (by rwa [hasTwoSpaces, if_neg hguard] at h)]
    simp

/-- `str.split("  ")` leaves a line without a two-space run intact. -/
theorem splitTwoSpaces_no_two (l : List Char) (h : hasTwoSpaces l = false) :
    splitTwoSpaces l = [l] := by
  rw [splitTwoSpaces, splitTwoGo_no_two l [] h]
  simp

/-- C9: the content normalizer is the identity on text already in normal
form — non-empty stripped lines without two-space runs, joined by single
newlines (scraping_bee.py:64-67, zenrows.py:57-60). -/
theorem C9_normalizer_idempotent (ls : List (List Char))
    (h : ∀ l ∈ ls, isNormalLine l) :
    normalizeText (joinLines ls) = joinLines ls := by
  unfold normalizeText
  rw [splitlines_joinLines ls fun l hl => ⟨(h l hl).1, (h l hl).2.2.2⟩]
  rw [map_eq_self_of_forall pyStrip ls fun l hl => (h l hl).2.1]
  rw [flatMap_eq_self_of_forall _ ls fun l hl => by
    rw [splitTwoSpaces_no_two l (h l hl).2.2.1, List.map_cons, List.map_nil,
      (h l hl).2.1]]
  rw [List.filter_eq_self.mpr fun a ha => by
    simpa using (h a ha).1]

/-- Witness for C9 on a concrete two-line normal-form text. -/
theorem C9_normalizer_idempotent_witness :
    (∀ l ∈ [['h', 'i'], ['y', 'o', ' ', 'x']], isNormalLine l) ∧
    normalizeText (joinLines [['h', 'i'], ['y', 'o', ' ', 'x']]) =
      joinLines [['h', 'i'], ['y', 'o', ' ', 'x']] :=
  ⟨by decide, C9_normalizer_idempotent _ (by decide)⟩

end GptResearcher
